import Mathlib

/-!
Verification of the m223s-to-mqtt bridge (src/main.cpp) against its
natural-language specification.  The C++ program's pure logic is embedded
shallowly: bytes are `Nat` (< 256 where it matters), the `uint8_t` counter
increments modulo 256, enum values are their numeric C values, and the
side-effecting operations (`publish`, the scheduler, the BLE walk) are
modelled as pure functions returning the actions they would perform.
-/

namespace M223S

/-- Protocol command code for authorization (`CMD_CODE_AUTH = 0xff`). -/
def CMD_CODE_AUTH : Nat := 0xff

/-- Protocol command code for a state query (`CMD_CODE_QUERY = 0x06`). -/
def CMD_CODE_QUERY : Nat := 0x06

/-- Protocol command code for turn-off (`CMD_CODE_OFF = 0x04`). -/
def CMD_CODE_OFF : Nat := 0x04

/-- The MQTT topic the device state is published to (`M223S_STATE_TOPIC`). -/
def M223S_STATE_TOPIC : String := "home/m223s/state"

/-- The 8-byte authorization key (`M223S_KEY`). -/
def M223S_KEY : List Nat := [0xa4, 0x3b, 0x64, 0xb0, 0xa3, 0xfb, 0xae, 0xcb]

/-- UUID of the write (TX) characteristic (`TX_UUID`). -/
def TX_UUID : String := "6e400002-b5a3-f393-e0a9-e50e24dcca9e"

/-- UUID of the notify (RX) characteristic (`RX_UUID`). -/
def RX_UUID : String := "6e400003-b5a3-f393-e0a9-e50e24dcca9e"

/-- Numeric value of `State::Disconnected` (-3). -/
def Disconnected : Int := -3

/-- Numeric value of `State::Connected` (-2). -/
def Connected : Int := -2

/-- Numeric value of `State::Authorized` (-1). -/
def Authorized : Int := -1

/-- `DeviceState` from src/main.cpp: the session counter (a `uint8_t`),
the program and lifecycle-state enum values (kept numeric, as the C++ code
casts raw bytes into these enums), and the last reported temperature,
hours and minutes. -/
structure DeviceState where
  ctr : Nat
  program : Nat
  state : Int
  temperature : Int
  hours : Int
  minutes : Int
deriving DecidableEq, Repr

/-- Default-constructed `DeviceState{}`: ctr 0, program `Frying` (0),
state `Disconnected` (-3), temperature/hours/minutes 0. -/
def DeviceState.init : DeviceState :=
  { ctr := 0, program := 0, state := Disconnected, temperature := 0, hours := 0, minutes := 0 }

/-- `magic_enum::enum_name` on the `Program` enum: the identifier for a
declared enumerator value, the empty string otherwise. -/
def program_enum_name (p : Nat) : String :=
  if p = 0 then "Frying" else if p = 1 then "Cereals" else if p = 2 then "Multicooker"
  else if p = 3 then "Pilau" else if p = 4 then "Steam" else if p = 5 then "Baking"
  else if p = 6 then "Stew" else if p = 7 then "Soup" else if p = 8 then "Milk_porridge"
  else if p = 9 then "Yoghurt" else if p = 10 then "Express" else if p = 11 then "Warming"
  else ""

/-- `magic_enum::enum_name` on the `State` enum: the identifier for a
declared enumerator value, the empty string otherwise. -/
def state_enum_name (s : Int) : String :=
  if s = -3 then "Disconnected" else if s = -2 then "Connected" else if s = -1 then "Authorized"
  else if s = 0 then "Off" else if s = 1 then "Setting" else if s = 2 then "Delayed"
  else if s = 3 then "Heating" else if s = 4 then "Unknown" else if s = 5 then "On"
  else if s = 6 then "Keep_warm" else ""

/-- `friendly` from src/main.cpp: replace every underscore by a space. -/
def friendly (s : String) : String :=
  String.mk (s.toList.map (fun c => if c = '_' then ' ' else c))

/-- `std::quoted`: wrap in double quotes, backslash-escaping embedded
double quotes and backslashes. -/
def quoted (s : String) : String :=
  "\"" ++ String.join (s.toList.map (fun c =>
    if c = '"' ∨ c = '\\' then "\\" ++ String.mk [c] else String.mk [c])) ++ "\""

/-- `DeviceState::to_json`: the exact string produced by the `fmt::format`
call in src/main.cpp. -/
def DeviceState.to_json (d : DeviceState) : String :=
  "\x7b \"state\": " ++ quoted (friendly (state_enum_name d.state)) ++
  ", \"program\": " ++ quoted (friendly (program_enum_name d.program)) ++
  ", \"temperature\": " ++ toString d.temperature ++
  ", \"hours\": " ++ toString d.hours ++
  ", \"minutes\": " ++ toString d.minutes ++ "\x7d"

/-- One MQTT publication as performed by `mosquitto_publish`. -/
structure Publication where
  topic : String
  payload : String
  qos : Nat
  retain : Bool
deriving DecidableEq, Repr

/-- `DeviceState::publish`: the `mosquitto_publish(g.mqtt, &mid,
M223S_STATE_TOPIC, size, data, true, false)` call — the sixth argument is
the QoS (so QoS 1) and the seventh is the retain flag (so retain false). -/
def DeviceState.publish (d : DeviceState) : Publication :=
  { topic := M223S_STATE_TOPIC, payload := d.to_json, qos := 1, retain := false }

/-- One-argument `DeviceState::update_state(State)`: assign the state
field, then publish once.  Returns the new state and the list of
publications performed. -/
def DeviceState.update_state1 (d : DeviceState) (s : Int) : DeviceState × List Publication :=
  let d2 := { d with state := s }
  (d2, [d2.publish])

/-- Five-argument `DeviceState::update_state(State, Program, int, int,
int)`: assign all five fields, then publish once. -/
def DeviceState.update_state5 (d : DeviceState) (s : Int) (p : Nat) (t h m : Int) :
    DeviceState × List Publication :=
  let d2 := { d with state := s, program := p, temperature := t, hours := h, minutes := m }
  (d2, [d2.publish])

/-- `on_new_value` from src/main.cpp: decode a notification payload and
apply it to the device state.  Length < 4 payloads are dropped; auth
payloads (byte 2 = 0xff) set the state from byte 3; query payloads
(byte 2 = 0x06) require length ≥ 20 and set all five fields from bytes
11, 3, 5, 8, 9; other command codes are ignored. -/
def on_new_value (d : DeviceState) (value : List Nat) : DeviceState × List Publication :=
  if value.length < 4 then (d, [])
  else if value.getD 2 0 = CMD_CODE_AUTH then
    d.update_state1 (if value.getD 3 0 ≠ 0 then Authorized else Connected)
  else if value.getD 2 0 = CMD_CODE_QUERY then
    if value.length < 20 then (d, [])
    else d.update_state5 ((value.getD 11 0 : Int)) (value.getD 3 0)
      ((value.getD 5 0 : Int)) ((value.getD 8 0 : Int)) ((value.getD 9 0 : Int))
  else (d, [])

/-- The frame built and sent by `authorize` (inside the `start_notify`
continuation): `{0x55, g.device_state.ctr++, CMD_CODE_AUTH}` followed by
the 8 key bytes and `0xaa`.  The post-increment reads the current counter
into the frame and then increments it (a `uint8_t`, so modulo 256).
Returns the frame and the device state after the increment. -/
def authorize_send (d : DeviceState) : List Nat × DeviceState :=
  ([0x55, d.ctr, CMD_CODE_AUTH] ++ M223S_KEY ++ [0xaa], { d with ctr := (d.ctr + 1) % 256 })

/-- The frame built and sent by `query`:
`{0x55, g.device_state.ctr++, CMD_CODE_QUERY, 0xaa}`. -/
def query_send (d : DeviceState) : List Nat × DeviceState :=
  ([0x55, d.ctr, CMD_CODE_QUERY, 0xaa], { d with ctr := (d.ctr + 1) % 256 })

/-- The frame built and sent by `turnoff`:
`{0x55, g.device_state.ctr++, CMD_CODE_OFF, 0xaa}`. -/
def turnoff_send (d : DeviceState) : List Nat × DeviceState :=
  ([0x55, d.ctr, CMD_CODE_OFF, 0xaa], { d with ctr := (d.ctr + 1) % 256 })

/-- `DISCOVERY_MIN_INTERVAL` (60 s), in seconds. -/
def DISCOVERY_MIN_INTERVAL : Nat := 60

/-- The zero-argument `start_discovery()` throttle from src/main.cpp,
with `steady_clock` time in whole seconds.  Given the stored
`g.last_start_discovery_time` and the current time, it skips (returning
`false` and leaving the timestamp unchanged) when
`last + DISCOVERY_MIN_INTERVAL > now`; otherwise it records `now` as the
new timestamp and starts a scan on the adapters.  Returns whether a scan
was started and the updated timestamp. -/
def start_discovery (last now : Nat) : Bool × Nat :=
  if last + DISCOVERY_MIN_INTERVAL > now then (false, last) else (true, now)

/-- Actions the polling timer callback in `main` can perform, in order. -/
inductive SchedAction where
  | disconnectDevice
  | updateM223S
deriving DecidableEq, Repr

/-- The polling timer callback in `main`, with durations in tenths of a
second (`POLLING_INTERVAL` = 7.5 s = 75, 10 min = 6000; both are exactly
representable in the C++ `long double` arithmetic, so the comparison is
exact): if `g.device_state.ctr * POLLING_INTERVAL > 10min` it calls
`disconnect()` first, then it always calls `update_m223s_state()`. -/
def polling_fire (ctr : Nat) : List SchedAction :=
  if ctr * 75 > 6000 then [SchedAction.disconnectDevice, SchedAction.updateM223S]
  else [SchedAction.updateM223S]

/-- Outcome of the asynchronous `WriteValue` call issued by `write_value`:
either the acknowledgment (method reply) arrives within the timeout, or
sd-bus delivers a synthesized timeout error reply. -/
inductive WriteOutcome where
  | ack
  | timedOut
deriving DecidableEq, Repr

/-- What the completion path of `write_value` does once the reply callback
fires. -/
inductive WriteCompletion where
  | settleThenContinue (delay_usec : Nat)
  | timeoutFailure
deriving DecidableEq, Repr

/-- `WRITE_VALUE_TIMEOUT` (10 s) in microseconds, as passed to
`sd_bus_call_async`. -/
def WRITE_VALUE_TIMEOUT_USEC : Nat := 10000000

/-- The request assembled by `write_value`: the payload bytes, the
`a{sv}` options dictionary `{"type": "command"}`, and the call timeout. -/
structure WriteRequest where
  payload : List Nat
  options : List (String × String)
deriving DecidableEq, Repr

/-- The `WriteValue` request `write_value` builds for a byte vector. -/
def write_value_request (value : List Nat) : WriteRequest :=
  { payload := value, options := [("type", "command")] }

/-- The reply callback `write_value` installs with `sd_bus_call_async`.
sd-bus invokes this same callback for a normal reply and for the
synthesized error reply produced when the 10 s timeout expires; the
lambda in src/main.cpp ignores both the message and `ret_error` and
unconditionally schedules a 100'000 µs (100 ms) relative timer that runs
the stored continuation. -/
def write_value_on_reply (o : WriteOutcome) : WriteCompletion :=
  match o with
  | WriteOutcome.ack => WriteCompletion.settleThenContinue 100000
  | WriteOutcome.timedOut => WriteCompletion.settleThenContinue 100000

/-- A node of the BLE attribute namespace as seen through introspection:
its UUID property and its children, each carrying the child node name, in
the order the introspection XML lists them. -/
inductive AttrTree where
  | mk (uuid : String) (children : List (String × AttrTree))

mutual

/-- `walk` from src/main.cpp: visit the node itself first (yielding its
path paired with its UUID property), then each child depth-first in
introspection order, the child path being `path + "/" + name`. -/
def walkVisits (path : String) : AttrTree → List (String × String)
  | AttrTree.mk uuid children => (path, uuid) :: walkChildren path children

/-- Depth-first visit of a list of named children, in order. -/
def walkChildren (path : String) : List (String × AttrTree) → List (String × String)
  | [] => []
  | (name, t) :: rest => walkVisits (path ++ "/" ++ name) t ++ walkChildren path rest

end

/-- The body of the `initialize_paths` lambda folded over the visited
nodes: `if (uuid == TX_UUID) g.tx_path = node; else if (uuid == RX_UUID)
g.rx_path = node;` — every match overwrites the previous value. -/
def assignPaths : String → String → List (String × String) → String × String
  | tx, rx, [] => (tx, rx)
  | tx, rx, (path, uuid) :: rest =>
    if uuid = TX_UUID then assignPaths path rx rest
    else if uuid = RX_UUID then assignPaths tx path rest
    else assignPaths tx rx rest

/-- `initialize_paths` from src/main.cpp, modelled on an attribute tree:
walk the namespace rooted at `devicePath` and run the UUID-matching
lambda on every visited node, starting from the current `g.tx_path` and
`g.rx_path` values.  Returns the final `(tx_path, rx_path)`. -/
def init_paths (devicePath : String) (t : AttrTree) (tx0 rx0 : String) : String × String :=
  assignPaths tx0 rx0 (walkVisits devicePath t)

/-- Claim C1: a notification payload whose command-code byte (byte 2) is
the query code 0x06 and whose length is at least 20 makes the
decode-and-apply step set program from byte 3, temperature from byte 5,
hours from byte 8, minutes from byte 9 and state from byte 11, updating
all five `DeviceState` fields together in one transition followed by
exactly one publication. -/
theorem C1_query_decode (d : DeviceState) (value : List Nat)
    (hlen : 20 ≤ value.length) (hcode : value.getD 2 0 = CMD_CODE_QUERY) :
    on_new_value d value =
      ({ d with
          state := (value.getD 11 0 : Int),
          program := value.getD 3 0,
          temperature := (value.getD 5 0 : Int),
          hours := (value.getD 8 0 : Int),
          minutes := (value.getD 9 0 : Int) },
        [DeviceState.publish
          { d with
            state := (value.getD 11 0 : Int),
            program := value.getD 3 0,
            temperature := (value.getD 5 0 : Int),
            hours := (value.getD 8 0 : Int),
            minutes := (value.getD 9 0 : Int) }]) := by
  have h4 : ¬ value.length < 4 := by omega
  have h20 : ¬ value.length < 20 := by omega
  have hauth : ¬ value.getD 2 0 = CMD_CODE_AUTH := by rw [hcode]; decide
  unfold on_new_value
  rw [if_neg h4, if_neg hauth, if_pos hcode, if_neg h20]
  rfl

/-- Witness for C1 at a concrete 20-byte query payload. -/
theorem C1_witness :
    20 ≤ ([0x55, 0, 6, 3, 0, 5, 0, 0, 8, 9, 0, 5, 0, 0, 0, 0, 0, 0, 0, 0xaa] : List Nat).length ∧
    ([0x55, 0, 6, 3, 0, 5, 0, 0, 8, 9, 0, 5, 0, 0, 0, 0, 0, 0, 0, 0xaa] : List Nat).getD 2 0
      = CMD_CODE_QUERY ∧
    on_new_value DeviceState.init [0x55, 0, 6, 3, 0, 5, 0, 0, 8, 9, 0, 5, 0, 0, 0, 0, 0, 0, 0, 0xaa]
      = (⟨0, 3, 5, 5, 8, 9⟩, [DeviceState.publish ⟨0, 3, 5, 5, 8, 9⟩]) :=
  ⟨by decide, by decide,
    C1_query_decode DeviceState.init
      [0x55, 0, 6, 3, 0, 5, 0, 0, 8, 9, 0, 5, 0, 0, 0, 0, 0, 0, 0, 0xaa] (by decide) (by decide)⟩

/-- Claim C2: every encoded command frame is
`[0x55, counter, code, payload..., 0xAA]` — auth carries code 0xFF
followed by the 8 key bytes, query carries 0x06, and off carries the
distinct code 0x04; in each of the three send operations the counter byte
equals the session counter at the time of send and the counter is
incremented immediately afterwards, wrapping modulo 256. -/
theorem C2_command_frames (d : DeviceState) :
    (authorize_send d).1 = 0x55 :: d.ctr :: CMD_CODE_AUTH :: (M223S_KEY ++ [0xaa]) ∧
    (authorize_send d).2.ctr = (d.ctr + 1) % 256 ∧
    (query_send d).1 = [0x55, d.ctr, CMD_CODE_QUERY, 0xaa] ∧
    (query_send d).2.ctr = (d.ctr + 1) % 256 ∧
    (turnoff_send d).1 = [0x55, d.ctr, CMD_CODE_OFF, 0xaa] ∧
    (turnoff_send d).2.ctr = (d.ctr + 1) % 256 ∧
    CMD_CODE_OFF ≠ CMD_CODE_QUERY ∧ M223S_KEY.length = 8 :=
  ⟨rfl, rfl, rfl, rfl, rfl, rfl, by decide, by decide⟩

/-- Claim C3: a payload shorter than the minimum length required by its
command code — any payload of length < 4, and any query-code payload of
length < 20 — is rejected as too short and leaves every field of
`DeviceState` unchanged, with no publication. -/
theorem C3_too_short_dropped (d : DeviceState) (value : List Nat)
    (h : value.length < 4 ∨ (value.getD 2 0 = CMD_CODE_QUERY ∧ value.length < 20)) :
    on_new_value d value = (d, []) := by
  rcases h with h | ⟨hc, hl⟩
  · unfold on_new_value
    rw [if_pos h]
  · by_cases h4 : value.length < 4
    · unfold on_new_value
      rw [if_pos h4]
    · have hauth : ¬ value.getD 2 0 = CMD_CODE_AUTH := by rw [hc]; decide
      unfold on_new_value
      rw [if_neg h4, if_neg hauth, if_pos hc, if_pos hl]

/-- Witness for C3 at a concrete 19-byte query-code payload. -/
theorem C3_witness :
    (([0x55, 0, 6, 3, 0, 5, 0, 0, 8, 9, 0, 5, 0, 0, 0, 0, 0, 0, 0] : List Nat).length < 4 ∨
      (([0x55, 0, 6, 3, 0, 5, 0, 0, 8, 9, 0, 5, 0, 0, 0, 0, 0, 0, 0] : List Nat).getD 2 0
          = CMD_CODE_QUERY ∧
        ([0x55, 0, 6, 3, 0, 5, 0, 0, 8, 9, 0, 5, 0, 0, 0, 0, 0, 0, 0] : List Nat).length < 20)) ∧
    on_new_value ⟨7, 3, 5, 42, 1, 2⟩ [0x55, 0, 6, 3, 0, 5, 0, 0, 8, 9, 0, 5, 0, 0, 0, 0, 0, 0, 0]
      = (⟨7, 3, 5, 42, 1, 2⟩, []) :=
  ⟨Or.inr ⟨by decide, by decide⟩,
    C3_too_short_dropped ⟨7, 3, 5, 42, 1, 2⟩
      [0x55, 0, 6, 3, 0, 5, 0, 0, 8, 9, 0, 5, 0, 0, 0, 0, 0, 0, 0]
      (Or.inr ⟨by decide, by decide⟩)⟩

/-- Claim C4 (counterexample): the claim says an auth payload with
byte 3 = 0 resets program, temperature, hours and minutes to their
defaults together with the transition back to `Connected`; on the code,
processing `[0x55, 0, 0xff, 0]` from a state with temperature 42 keeps
temperature 42 (only the state field changes), so no reset happens. -/
theorem C4_counterexample :
    (on_new_value ⟨5, 3, -1, 42, 1, 2⟩ [0x55, 0, 0xff, 0]).1
      = ⟨5, 3, -2, 42, 1, 2⟩ ∧
    ¬ (on_new_value ⟨5, 3, -1, 42, 1, 2⟩ [0x55, 0, 0xff, 0]).1.temperature = 0 := by
  decide

/-- Claim C4 as amended: an auth payload (byte 2 = 0xff, length ≥ 4)
with byte 3 ≠ 0 sets the lifecycle state to `Authorized`, and with
byte 3 = 0 sets it back to `Connected`; in both cases only the state
field of `DeviceState` changes — program, temperature, hours and minutes
keep their previous values (no reset to defaults) — followed by one
publication. -/
theorem C4_auth_decode (d : DeviceState) (value : List Nat)
    (hlen : 4 ≤ value.length) (hcode : value.getD 2 0 = CMD_CODE_AUTH) :
    on_new_value d value =
      ({ d with state := if value.getD 3 0 ≠ 0 then Authorized else Connected },
        [DeviceState.publish
          { d with state := if value.getD 3 0 ≠ 0 then Authorized else Connected }]) := by
  have h4 : ¬ value.length < 4 := by omega
  unfold on_new_value
  rw [if_neg h4, if_pos hcode]
  rfl

/-- Witness for C4 at a concrete granted auth payload. -/
theorem C4_witness :
    4 ≤ ([0x55, 1, 0xff, 1] : List Nat).length ∧
    ([0x55, 1, 0xff, 1] : List Nat).getD 2 0 = CMD_CODE_AUTH ∧
    on_new_value DeviceState.init [0x55, 1, 0xff, 1]
      = (⟨0, 0, -1, 0, 0, 0⟩, [DeviceState.publish ⟨0, 0, -1, 0, 0, 0⟩]) :=
  ⟨by decide, by decide,
    C4_auth_decode DeviceState.init [0x55, 1, 0xff, 1] (by decide) (by decide)⟩

/-- Claim C5 (counterexample): the claim says the state is published with
the "retain" delivery option set and with enum values rendered as
space-separated lowercase words; on the code, `mosquitto_publish` is
called with QoS 1 and retain `false`, and the `Keep_warm` enumerator is
rendered "Keep warm", not "keep warm". -/
theorem C5_counterexample :
    (DeviceState.publish ⟨0, 0, 6, 0, 0, 0⟩).topic = M223S_STATE_TOPIC ∧
    (DeviceState.publish ⟨0, 0, 6, 0, 0, 0⟩).retain = false ∧
    friendly (state_enum_name 6) = "Keep warm" ∧
    ¬ friendly (state_enum_name 6) = "keep warm" := by
  decide

/-- Claim C5 as amended: each `update_state` call serializes the new
`DeviceState` to the JSON body `{state, program, temperature, hours,
minutes}` — enum values rendered as their enumerator identifiers with
underscores replaced by spaces (capitalization preserved) — and publishes
it exactly once to the fixed topic `home/m223s/state`, with QoS 1 and the
retain flag not set. -/
theorem C5_publish_semantics (d : DeviceState) (s : Int) (p : Nat) (t h m : Int) :
    (d.update_state1 s).2
      = [⟨M223S_STATE_TOPIC, (d.update_state1 s).1.to_json, 1, false⟩] ∧
    (d.update_state5 s p t h m).2
      = [⟨M223S_STATE_TOPIC, (d.update_state5 s p t h m).1.to_json, 1, false⟩] ∧
    (d.update_state1 s).1.to_json =
      "\x7b \"state\": " ++ quoted (friendly (state_enum_name s)) ++ ", \"program\": " ++
      quoted (friendly (program_enum_name d.program)) ++ ", \"temperature\": " ++
      toString d.temperature ++ ", \"hours\": " ++ toString d.hours ++ ", \"minutes\": " ++
      toString d.minutes ++ "\x7d" :=
  ⟨rfl, rfl, rfl⟩

/-- Claim C6 (counterexample): the claim says the first matching
occurrence in depth-first traversal order is assigned to the role and
later matches do not override it; on the code, with two children both
carrying the write-characteristic UUID, the resolver ends with the path
of the second (later) occurrence, not the first. -/
theorem C6_counterexample :
    walkVisits "/dev"
        (AttrTree.mk "" [("a", AttrTree.mk TX_UUID []), ("b", AttrTree.mk TX_UUID [])])
      = [("/dev", ""), ("/dev/a", TX_UUID), ("/dev/b", TX_UUID)] ∧
    (init_paths "/dev"
        (AttrTree.mk "" [("a", AttrTree.mk TX_UUID []), ("b", AttrTree.mk TX_UUID [])]) "" "").1
      = "/dev/b" ∧
    ¬ (init_paths "/dev"
        (AttrTree.mk "" [("a", AttrTree.mk TX_UUID []), ("b", AttrTree.mk TX_UUID [])]) "" "").1
      = "/dev/a" := by
  decide

/-- Helper: the tx result of the path-assignment fold is the last
TX-UUID match in visit order, or the initial value if none. -/
theorem assignPaths_tx_last (vs : List (String × String)) :
    ∀ tx rx, (assignPaths tx rx vs).1 =
      ((vs.filter (fun p => p.2 == TX_UUID)).map Prod.fst).getLastD tx := by
  induction vs with
  | nil => intro tx rx; rfl
  | cons head rest ih =>
    intro tx rx
    obtain ⟨path, uuid⟩ := head
    simp only [assignPaths]
    by_cases htx : uuid = TX_UUID
    · have hp : (uuid == TX_UUID) = true := beq_iff_eq.mpr htx
      rw [if_pos htx, ih,
        @List.filter_cons_of_pos _ (fun p => p.2 == TX_UUID) (path, uuid) rest hp,
        List.map_cons, List.getLastD_cons]
    · have hp : ¬ (uuid == TX_UUID) = true := by simpa using htx
      rw [if_neg htx]
      by_cases hrx : uuid = RX_UUID
      · rw [if_pos hrx, ih,
          @List.filter_cons_of_neg _ (fun p => p.2 == TX_UUID) (path, uuid) rest hp]
      · rw [if_neg hrx, ih,
          @List.filter_cons_of_neg _ (fun p => p.2 == TX_UUID) (path, uuid) rest hp]

/-- Helper: the rx result of the path-assignment fold is the last
RX-UUID match in visit order, or the initial value if none. -/
theorem assignPaths_rx_last (vs : List (String × String)) :
    ∀ tx rx, (assignPaths tx rx vs).2 =
      ((vs.filter (fun p => p.2 == RX_UUID)).map Prod.fst).getLastD rx := by
  induction vs with
  | nil => intro tx rx; rfl
  | cons head rest ih =>
    intro tx rx
    obtain ⟨path, uuid⟩ := head
    simp only [assignPaths]
    by_cases htx : uuid = TX_UUID
    · subst htx
      have hp : ¬ (TX_UUID == RX_UUID) = true := by decide
      rw [if_pos rfl, ih,
        @List.filter_cons_of_neg _ (fun p => p.2 == RX_UUID) (path, TX_UUID) rest hp]
    · rw [if_neg htx]
      by_cases hrx : uuid = RX_UUID
      · have hp : (uuid == RX_UUID) = true := beq_iff_eq.mpr hrx
        rw [if_pos hrx, ih,
          @List.filter_cons_of_pos _ (fun p => p.2 == RX_UUID) (path, uuid) rest hp,
          List.map_cons, List.getLastD_cons]
      · have hp : ¬ (uuid == RX_UUID) = true := by simpa using hrx
        rw [if_neg hrx, ih,
          @List.filter_cons_of_neg _ (fun p => p.2 == RX_UUID) (path, uuid) rest hp]

/-- Claim C6 as amended: for each role the topology resolver assigns the
path of the LAST matching occurrence in depth-first traversal order
(self node first, then children in introspection order) — every later
match overrides the previous one — and the walk runs to completion. -/
theorem C6_last_match_wins (devicePath : String) (t : AttrTree) (tx0 rx0 : String) :
    init_paths devicePath t tx0 rx0 =
      ((((walkVisits devicePath t).filter (fun p => p.2 == TX_UUID)).map Prod.fst).getLastD tx0,
        (((walkVisits devicePath t).filter (fun p => p.2 == RX_UUID)).map Prod.fst).getLastD rx0)
    := by
  have h1 := assignPaths_tx_last (walkVisits devicePath t) tx0 rx0
  have h2 := assignPaths_rx_last (walkVisits devicePath t) tx0 rx0
  rw [init_paths, ← h1, ← h2]

/-- Claim C7 (counterexample): the claim says that when the
acknowledgment never arrives within the timeout the operation resolves
to a timeout failure and no settle delay is applied, with the success
continuation not run; on the code, the reply callback ignores the error
and on the timeout reply still schedules the 100 ms settle delay and
runs the continuation. -/
theorem C7_counterexample :
    write_value_on_reply WriteOutcome.timedOut = WriteCompletion.settleThenContinue 100000 ∧
    ¬ write_value_on_reply WriteOutcome.timedOut = WriteCompletion.timeoutFailure := by
  decide

/-- Claim C7 as amended: the reply callback installed by `write_value`
is outcome-independent — on acknowledgment within the ~10 s timeout the
continuation runs only after the ~100 ms settle delay, and on timeout
the very same settle-delay-then-continuation path runs (no distinct
timeout-failure path exists); the request carries the
`{"type": "command"}` option and the 10 s call timeout. -/
theorem C7_settle_always :
    (∀ o, write_value_on_reply o = WriteCompletion.settleThenContinue 100000) ∧
    (∀ value, (write_value_request value).options = [("type", "command")]) ∧
    WRITE_VALUE_TIMEOUT_USEC = 10000000 := by
  refine ⟨fun o => ?_, fun value => rfl, rfl⟩
  cases o <;> rfl

/-- Claim C8 (counterexample): the claim says that for ANY two
invocations of the active-scan starter separated by less than 60 s the
second never starts a scan; on the code, an invocation at t = 100 starts
a scan, an invocation at t = 159 is throttled (timestamp untouched), and
an invocation at t = 161 — only 2 s after the previous invocation —
starts a scan again, because the cooldown is measured from the last
un-throttled invocation, not from the previous invocation. -/
theorem C8_counterexample :
    (start_discovery 0 100).1 = true ∧
    (start_discovery (start_discovery 0 100).2 159).1 = false ∧
    (start_discovery (start_discovery (start_discovery 0 100).2 159).2 161).1 = true ∧
    161 - 159 < DISCOVERY_MIN_INTERVAL := by
  decide

/-- Claim C8 as amended: two invocations of the active-scan starter less
than 60 s apart never BOTH start a scan — if the earlier invocation
started one (recording its time in the throttle), the later invocation
within the cooldown window is skipped. -/
theorem C8_throttle (last t1 t2 : Nat)
    (hgap : t2 < t1 + DISCOVERY_MIN_INTERVAL)
    (hfirst : (start_discovery last t1).1 = true) :
    (start_discovery (start_discovery last t1).2 t2).1 = false := by
  unfold start_discovery at hfirst ⊢
  by_cases h : last + DISCOVERY_MIN_INTERVAL > t1
  · simp [h] at hfirst
  · simp [h, show t1 + DISCOVERY_MIN_INTERVAL > t2 from hgap]

/-- Witness for C8 at concrete times 100 and 130. -/
theorem C8_witness :
    130 < 100 + DISCOVERY_MIN_INTERVAL ∧ (start_discovery 0 100).1 = true ∧
    (start_discovery (start_discovery 0 100).2 130).1 = false :=
  ⟨by decide, by decide, C8_throttle 0 100 130 (by decide) (by decide)⟩

/-- Claim C9 (counterexample): the claim says the scheduler disconnects
when counter × 7.5 s ≥ 10 min; on the code the comparison is strict, so
at counter = 80 — exactly 10 minutes of elapsed polling — no disconnect
happens before the cycle. -/
theorem C9_counterexample :
    80 * 75 ≥ 6000 ∧ polling_fire 80 = [SchedAction.updateM223S] := by
  decide

/-- Claim C9 as amended: before each scheduled polling fire the device
is disconnected before the normal cycle exactly when
counter × 7.5 s STRICTLY exceeds 10 min, i.e. when counter ≥ 81;
otherwise (counter ≤ 80, including the exact 10-minute mark) no
proactive disconnect occurs. -/
theorem C9_idle_disconnect (ctr : Nat) :
    polling_fire ctr =
      if 81 ≤ ctr then [SchedAction.disconnectDevice, SchedAction.updateM223S]
      else [SchedAction.updateM223S] := by
  unfold polling_fire
  by_cases h : ctr * 75 > 6000
  · have h81 : 81 ≤ ctr := by omega
    rw [if_pos h, if_pos h81]
  · have h81 : ¬ 81 ≤ ctr := by omega
    rw [if_neg h, if_neg h81]

/-- Claim C10: the one-argument `update_state` modifies only the state
field of `DeviceState` and triggers exactly one publication; counter,
program, temperature, hours and minutes are left unchanged by it. -/
theorem C10_lifecycle_frame (d : DeviceState) (s : Int) :
    (d.update_state1 s).1.state = s ∧
    (d.update_state1 s).1.ctr = d.ctr ∧
    (d.update_state1 s).1.program = d.program ∧
    (d.update_state1 s).1.temperature = d.temperature ∧
    (d.update_state1 s).1.hours = d.hours ∧
    (d.update_state1 s).1.minutes = d.minutes ∧
    (d.update_state1 s).2 = [(d.update_state1 s).1.publish] :=
  ⟨rfl, rfl, rfl, rfl, rfl, rfl, rfl⟩

end M223S
